import Mathlib

/-!
Shallow embedding of the dashboard client (src/unnamed/part_000).

The component keeps React state (`kpis`, `situationData`, `chatOpen`,
`messages`, `input`, `loading`, `approving`, `isRecording`, plus the
media-recorder refs) and five asynchronous handlers: `fetchData`,
`handleSendMessage`, `startRecording`, `stopRecording`,
`handleApproveTask`.  Each handler is embedded as a pure function from
the pre-state (plus the outcomes of the awaited external calls, passed
in as `Except` values) to an `Output` record holding the post-state,
the list of HTTP requests issued, the `alert` notices shown, and the
audio sources played.  Sequential `setX` calls inside a handler are
composed as successive functional updates, exactly mirroring the
`setX(prev => ...)` updater order of the source.
-/

/-- KPI record as received from the analytics service
(part_000 lines 12-17).  Numeric fields are modelled over `Int`;
no arithmetic on them is performed by the client. -/
structure KPI where
  traffic_index : Int
  conversion_proxy : Int
  congestion_level : Int
  time_window_start : String
deriving DecidableEq, Repr

/-- Situation record (part_000 lines 19-23). -/
structure Situation where
  situation : String
  severity : Int
  details : String
deriving DecidableEq, Repr

/-- Recommendation record (part_000 lines 25-29). -/
structure Recommendation where
  action : String
  priority : String
  expected_impact : String
deriving DecidableEq, Repr

/-- Body of `GET /api/cv/recommendations/{id}` (part_000 lines 31-34). -/
structure RecommendationResponse where
  situation : Situation
  recommendations : List Recommendation
deriving DecidableEq, Repr

/-- Chat participant role (part_000 line 37). -/
inductive Role where
  | user
  | bot
deriving DecidableEq, Repr

/-- Chat message (part_000 lines 36-39). -/
structure ChatMessage where
  role : Role
  text : String
deriving DecidableEq, Repr

/-- An audio chunk delivered by the recorder, abstract byte content. -/
abbrev AudioChunk : Type := Nat

/-- A finalized audio blob: the concatenated chunk list
(part_000 line 142). -/
structure AudioBlob where
  chunks : List AudioChunk
deriving DecidableEq

/-- Body of `POST /api/nlp/nlp/query` responses (consumed at
part_000 line 123). -/
structure TextResponse where
  response_text : String
deriving DecidableEq, Repr

/-- The `nlp_data` field of a voice-query response (part_000 line 109). -/
structure NlpData where
  response_text : String
deriving DecidableEq, Repr

/-- Body of `POST /api/nlp/nlp/voice/query` responses
(part_000 lines 108-113). -/
structure VoiceResponse where
  transcription : String
  nlp_data : NlpData
  audio_response : String
deriving DecidableEq, Repr

/-- Payload of `POST /api/cv/tasks/from-recommendation`
(part_000 lines 165-172). -/
structure TaskPayload where
  employee_id : Int
  branch_id : String
  action : String
  priority : String
  expected_impact : String
  note : String
deriving DecidableEq, Repr

/-- Payload of `POST /api/nlp/nlp/query` (part_000 lines 117-121). -/
structure TextQueryPayload where
  query : String
  conversation_id : String
  user_role : String
deriving DecidableEq, Repr

/-- An HTTP request issued by the client, one constructor per endpoint
used in part_000. -/
inductive Request where
  | getKpis (branch : String) (limit : Nat)
  | getRecommendations (branch : String)
  | postTask (payload : TaskPayload)
  | postTextQuery (payload : TextQueryPayload)
  | postVoiceQuery (blob : AudioBlob) (filename : String)
      (conversation_id : String) (user_role : String)
deriving DecidableEq

/-- The component's React state (part_000 lines 46-59), including the
two refs used by the voice-capture machinery. -/
structure AppState where
  kpis : List KPI
  situationData : Option RecommendationResponse
  chatOpen : Bool
  messages : List ChatMessage
  input : String
  loading : Bool
  approving : Bool
  isRecording : Bool
  mediaRecorder : Option Unit
  audioChunks : List AudioChunk
deriving DecidableEq

/-- The initial state set by the `useState` initializers
(part_000 lines 46-59). -/
def initialState : AppState :=
  { kpis := []
    situationData := none
    chatOpen := false
    messages := [ChatMessage.mk .bot "Hello! I can help you analyze branch performance. Ask me anything!"]
    input := ""
    loading := false
    approving := false
    isRecording := false
    mediaRecorder := none
    audioChunks := [] }

/-- Result of running one handler: the post-state together with the
observable effects (HTTP requests issued, alert notices shown, audio
sources played). -/
structure Output where
  state : AppState
  requests : List Request
  alerts : List String
  played : List String
deriving DecidableEq

/-- Hardcoded branch identifier (part_000 line 42). -/
def BRANCH_ID : String := "BRANCH_A"

/-- Fixed conversation identifier sent with every assistant query
(part_000 lines 100, 119). -/
def CONVERSATION_ID : String := "123e4567-e89b-12d3-a456-426614174000"

/-- Fixed user role sent with every assistant query
(part_000 lines 101, 120). -/
def USER_ROLE : String := "manager"

/-- The apology shown when an assistant call fails (part_000 line 126). -/
def apologyText : String := "Sorry, I couldn\x27t reach the AI service."

/-- The blankness test of the source's guard `!input.trim()`
(part_000 line 87): a string trims to the empty string exactly when
every character is whitespace. -/
def isBlank (s : String) : Bool := s.data.all Char.isWhitespace

/-- `fetchData` (part_000 lines 62-77).  `kpiRes` and `recRes` are the
outcomes of the two awaited GETs.  `setLoading(true)`; then in the
`try` block the KPI GET is awaited — on success `setKpis` stores the
returned list reversed, then the recommendations GET is awaited and on
success `setSituationData` stores its body.  Any raise lands in the
`catch` (log only); `finally` does `setLoading(false)`.  When the KPI
GET raises, the recommendations GET is never issued. -/
def fetchData (s : AppState) (kpiRes : Except Unit (List KPI))
    (recRes : Except Unit RecommendationResponse) : Output :=
  match kpiRes with
  | .error _ =>
      { state := { s with loading := false }
        requests := [Request.getKpis BRANCH_ID 20]
        alerts := []
        played := [] }
  | .ok ks =>
      match recRes with
      | .error _ =>
          { state := { s with kpis := ks.reverse, loading := false }
            requests := [Request.getKpis BRANCH_ID 20,
                         Request.getRecommendations BRANCH_ID]
            alerts := []
            played := [] }
      | .ok r =>
          { state := { s with kpis := ks.reverse, situationData := some r,
                              loading := false }
            requests := [Request.getKpis BRANCH_ID 20,
                         Request.getRecommendations BRANCH_ID]
            alerts := []
            played := [] }

/-- `handleSendMessage` (part_000 lines 86-128).  `audioBlob` is the
optional voice payload; `voiceRes` and `textRes` are the outcomes of
the voice-query and text-query POSTs (only the one actually awaited by
the taken branch is consulted).  Mirrors the source exactly: the blank
guard (`!input.trim() && !audioBlob`), the `input || "[Voice Message]"`
fallback, the pre-request user append and input clear for the text
path only, the success appends, the inline audio play, and the single
apology append in the `catch`. -/
def handleSendMessage (s : AppState) (audioBlob : Option AudioBlob)
    (voiceRes : Except Unit VoiceResponse)
    (textRes : Except Unit TextResponse) : Output :=
  if isBlank s.input && audioBlob.isNone then
    { state := s, requests := [], alerts := [], played := [] }
  else
    let userMsg : String :=
      if s.input == "" then
        (if audioBlob.isSome then "[Voice Message]" else "")
      else s.input
    match audioBlob with
    | some blob =>
        let req := Request.postVoiceQuery blob "query.mp3" CONVERSATION_ID USER_ROLE
        match voiceRes with
        | .ok v =>
            { state := { s with messages := s.messages ++
                [ChatMessage.mk .user v.transcription,
                 ChatMessage.mk .bot v.nlp_data.response_text] }
              requests := [req]
              alerts := []
              played := ["data:audio/mp3;base64," ++ v.audio_response] }
        | .error _ =>
            { state := { s with messages := s.messages ++
                [ChatMessage.mk .bot apologyText] }
              requests := [req]
              alerts := []
              played := [] }
    | none =>
        let s1 := { s with
          messages := s.messages ++ [ChatMessage.mk .user userMsg],
          input := "" }
        let req := Request.postTextQuery
          { query := userMsg, conversation_id := CONVERSATION_ID,
            user_role := USER_ROLE }
        match textRes with
        | .ok t =>
            { state := { s1 with messages := s1.messages ++
                [ChatMessage.mk .bot t.response_text] }
              requests := [req]
              alerts := []
              played := [] }
        | .error _ =>
            { state := { s1 with messages := s1.messages ++
                [ChatMessage.mk .bot apologyText] }
              requests := [req]
              alerts := []
              played := [] }

/-- `startRecording` (part_000 lines 130-153).  `micAccess` is the
outcome of `getUserMedia`.  On success a recorder is created, the
chunk buffer is reset and the recording flag is set; on raise the
`catch` logs and shows the blocking alert, touching no state and
issuing no request. -/
def startRecording (s : AppState) (micAccess : Except Unit Unit) : Output :=
  match micAccess with
  | .ok _ =>
      { state := { s with mediaRecorder := some (), audioChunks := [],
                          isRecording := true }
        requests := []
        alerts := []
        played := [] }
  | .error _ =>
      { state := s
        requests := []
        alerts := ["Could not access microphone."]
        played := [] }

/-- `stopRecording` (part_000 lines 155-160).  Stops the recorder and
clears the recording flag only when a recorder exists and recording is
active.  The recorder's asynchronous `onstop` callback (finalizing the
blob and invoking the voice send) is a separate subsequent operation. -/
def stopRecording (s : AppState) : Output :=
  if s.mediaRecorder.isSome && s.isRecording then
    { state := { s with isRecording := false },
      requests := [], alerts := [], played := [] }
  else
    { state := s, requests := [], alerts := [], played := [] }

/-- `handleApproveTask` (part_000 lines 162-179).  `postRes` is the
outcome of the task-creation POST.  `setApproving(true)`, one POST
with the fixed employee id 101, the branch id and the recommendation's
three fields; a confirmation alert on success, a failure alert in the
`catch`; `finally` does `setApproving(false)`.  No retry, no change to
`situationData`. -/
def handleApproveTask (s : AppState) (rec : Recommendation)
    (postRes : Except Unit Unit) : Output :=
  let req := Request.postTask
    { employee_id := 101
      branch_id := BRANCH_ID
      action := rec.action
      priority := rec.priority
      expected_impact := rec.expected_impact
      note := "Approved via Dashboard" }
  match postRes with
  | .ok _ =>
      { state := { s with approving := false }
        requests := [req]
        alerts := ["Task created for action: " ++ rec.action]
        played := [] }
  | .error _ =>
      { state := { s with approving := false }
        requests := [req]
        alerts := ["Failed to create task"]
        played := [] }

/-- One user-level or timer-level operation of the program, carrying
the outcomes of the external calls it awaits. -/
inductive Op where
  | poll (kpiRes : Except Unit (List KPI))
      (recRes : Except Unit RecommendationResponse)
  | send (audioBlob : Option AudioBlob)
      (voiceRes : Except Unit VoiceResponse)
      (textRes : Except Unit TextResponse)
  | approve (rec : Recommendation) (postRes : Except Unit Unit)
  | startRec (micAccess : Except Unit Unit)
  | stopRec

/-- Dispatch one operation to its handler. -/
def step (s : AppState) : Op → Output
  | .poll kpiRes recRes => fetchData s kpiRes recRes
  | .send audioBlob voiceRes textRes =>
      handleSendMessage s audioBlob voiceRes textRes
  | .approve rec postRes => handleApproveTask s rec postRes
  | .startRec micAccess => startRecording s micAccess
  | .stopRec => stopRecording s

/-- A state ready to send the spec's example text query. -/
def chatReadyState : AppState := { initialState with input := "What is traffic today?" }

/-- A state whose input is whitespace-only. -/
def blankInputState : AppState := { initialState with input := "   " }

/-- A concrete KPI sample for closed evaluations. -/
def sampleKpi : KPI :=
  { traffic_index := 1, conversion_proxy := 1, congestion_level := 1,
    time_window_start := "2024-01-01T00:00" }

/-!  Verified properties  -/

/-- C2: for a poll cycle in which both GETs succeed, the stored KPI
sequence is exactly the returned list reversed into chronological
order and the stored situation/recommendations are exactly the latest
response body, independent of the prior state (no diffing or
merging). -/
theorem fetchData_success_replaces_state (s : AppState) (ks : List KPI)
    (r : RecommendationResponse) :
    (fetchData s (.ok ks) (.ok r)).state.kpis = ks.reverse ∧
    (fetchData s (.ok ks) (.ok r)).state.situationData = some r :=
  ⟨rfl, rfl⟩

/-- C4: approving a recommendation issues exactly one write request,
whose payload carries the recommendation's three fields plus the fixed
branch identifier and the fixed actor identifier 101, and the
displayed recommendation list (`situationData`) is unchanged on
success and on failure alike. -/
theorem approveTask_single_request_keeps_recommendations (s : AppState)
    (rec : Recommendation) (postRes : Except Unit Unit) :
    (handleApproveTask s rec postRes).requests =
      [Request.postTask
        { employee_id := 101, branch_id := BRANCH_ID, action := rec.action,
          priority := rec.priority, expected_impact := rec.expected_impact,
          note := "Approved via Dashboard" }] ∧
    (handleApproveTask s rec postRes).state.situationData = s.situationData := by
  cases postRes <;> exact ⟨rfl, rfl⟩

/-- C5: a voice query whose upload succeeds appends exactly two chat
entries in order — a user entry with the transcription, then a bot
entry with the reply text — and plays the returned base64 audio
inline. -/
theorem sendMessage_voice_success_appends_and_plays (s : AppState)
    (b : AudioBlob) (v : VoiceResponse) (textRes : Except Unit TextResponse) :
    (handleSendMessage s (some b) (.ok v) textRes).state.messages =
      s.messages ++ [ChatMessage.mk .user v.transcription,
                     ChatMessage.mk .bot v.nlp_data.response_text] ∧
    (handleSendMessage s (some b) (.ok v) textRes).played =
      ["data:audio/mp3;base64," ++ v.audio_response] := by
  unfold handleSendMessage
  simp

/-- C6: a voice query whose upload fails appends exactly one chat
entry, a bot apology; no user entry (no transcription, no placeholder)
is appended. -/
theorem sendMessage_voice_failure_single_apology (s : AppState)
    (b : AudioBlob) (textRes : Except Unit TextResponse) :
    (handleSendMessage s (some b) (.error ()) textRes).state.messages =
      s.messages ++ [ChatMessage.mk .bot apologyText] := by
  unfold handleSendMessage
  simp

/-- Auxiliary: a non-blank input is a nonempty input. -/
theorem input_nonblank_nonempty (s : AppState) (h : isBlank s.input = false) :
    ¬ s.input = "" := by
  intro he
  rw [he] at h
  exact absurd h (by decide)

/-- C3: a text query with non-blank input whose request succeeds
appends exactly two chat entries in order — the user's literal typed
text, then the returned response text — and the input field is cleared
on submission regardless of the request's outcome (`res` ranges over
both outcomes). -/
theorem sendMessage_text_success_appends (s : AppState)
    (voiceRes : Except Unit VoiceResponse) (t : TextResponse)
    (res : Except Unit TextResponse) (h : isBlank s.input = false) :
    (handleSendMessage s none voiceRes (.ok t)).state.messages =
      s.messages ++ [ChatMessage.mk .user s.input,
                     ChatMessage.mk .bot t.response_text] ∧
    (handleSendMessage s none voiceRes res).state.input = "" := by
  have hne : ¬ s.input = "" := input_nonblank_nonempty s h
  constructor
  · simp [handleSendMessage, h, hne]
  · cases res <;> simp [handleSendMessage, h, hne]

/-- C7: a text query with non-blank input whose request fails leaves
the chat sequence extended by the user's message exactly once followed
by exactly one bot message carrying the fixed apology string. -/
theorem sendMessage_text_failure_appends (s : AppState)
    (voiceRes : Except Unit VoiceResponse) (h : isBlank s.input = false) :
    (handleSendMessage s none voiceRes (.error ())).state.messages =
      s.messages ++ [ChatMessage.mk .user s.input,
                     ChatMessage.mk .bot apologyText] := by
  have hne : ¬ s.input = "" := input_nonblank_nonempty s h
  simp [handleSendMessage, h, hne]

/-- C10: invoking the send operation with blank (whitespace-only)
input and no audio payload is a no-op: the state — chat sequence and
input field included — is unchanged and no HTTP request, alert or
audio playback is produced. -/
theorem sendMessage_blank_noop (s : AppState)
    (voiceRes : Except Unit VoiceResponse) (textRes : Except Unit TextResponse)
    (h : isBlank s.input = true) :
    handleSendMessage s none voiceRes textRes =
      { state := s, requests := [], alerts := [], played := [] } := by
  simp [handleSendMessage, h]

/-- C8: when microphone acquisition fails, `startRecording` leaves the
whole state unchanged (in particular a machine in the idle state stays
idle and the recording flag is never set), shows the blocking notice,
and issues no request. -/
theorem startRecording_denied_stays_idle (s : AppState)
    (h : s.isRecording = false) :
    (startRecording s (.error ())).state.isRecording = false ∧
    (startRecording s (.error ())).state = s ∧
    (startRecording s (.error ())).alerts = ["Could not access microphone."] ∧
    (startRecording s (.error ())).requests = [] :=
  ⟨h, rfl, rfl, rfl⟩

/-- Witness for the text-query success theorem at the spec's example
input and mocked response. -/
theorem sendMessage_text_success_appends_witness :
    isBlank chatReadyState.input = false ∧
    ((handleSendMessage chatReadyState none (.error ())
        (.ok (TextResponse.mk "Traffic is normal."))).state.messages =
       chatReadyState.messages ++
         [ChatMessage.mk .user chatReadyState.input,
          ChatMessage.mk .bot "Traffic is normal."] ∧
     (handleSendMessage chatReadyState none (.error ())
        (.error ())).state.input = "") :=
  ⟨by decide,
   sendMessage_text_success_appends chatReadyState (.error ())
     (TextResponse.mk "Traffic is normal.") (.error ()) (by decide)⟩

/-- Witness for the text-query failure theorem at the spec's example
input. -/
theorem sendMessage_text_failure_appends_witness :
    isBlank chatReadyState.input = false ∧
    (handleSendMessage chatReadyState none (.error ())
        (.error ())).state.messages =
      chatReadyState.messages ++
        [ChatMessage.mk .user chatReadyState.input,
         ChatMessage.mk .bot apologyText] :=
  ⟨by decide,
   sendMessage_text_failure_appends chatReadyState (.error ()) (by decide)⟩

/-- Witness for the blank-input no-op theorem at a whitespace-only
input. -/
theorem sendMessage_blank_noop_witness :
    isBlank blankInputState.input = true ∧
    handleSendMessage blankInputState none (.error ()) (.error ()) =
      { state := blankInputState, requests := [], alerts := [], played := [] } :=
  ⟨by decide,
   sendMessage_blank_noop blankInputState (.error ()) (.error ()) (by decide)⟩

/-- Witness for the microphone-denial theorem at the initial (idle)
state. -/
theorem startRecording_denied_stays_idle_witness :
    initialState.isRecording = false ∧
    ((startRecording initialState (.error ())).state.isRecording = false ∧
     (startRecording initialState (.error ())).state = initialState ∧
     (startRecording initialState (.error ())).alerts =
       ["Could not access microphone."] ∧
     (startRecording initialState (.error ())).requests = []) :=
  ⟨rfl, startRecording_denied_stays_idle initialState rfl⟩

/-- C1 counterexample: in a poll cycle from the initial state where
the KPI GET succeeds with one sample and the recommendations GET
fails, the displayed KPI sequence after the cycle is not identical to
its value before the cycle, contradicting the claim that any failing
read call leaves both KPI and situation state untouched. -/
theorem fetchData_partial_failure_changes_kpis :
    ¬ ((fetchData initialState (.ok [sampleKpi]) (.error ())).state.kpis =
         initialState.kpis ∧
       (fetchData initialState (.ok [sampleKpi]) (.error ())).state.situationData =
         initialState.situationData) := by
  decide

/-- C1 amended: every failing poll cycle is caught (the handler always
returns a normal `Output`) and leaves the situation/recommendations
state untouched; when the failing call is the KPI GET the KPI sequence
is also untouched, but when the KPI GET succeeds and the
recommendations GET fails the KPI sequence has already been replaced
by the returned list reversed. -/
theorem fetchData_failure_preserves_prior_state (s : AppState)
    (recRes : Except Unit RecommendationResponse) (ks : List KPI) :
    ((fetchData s (.error ()) recRes).state.kpis = s.kpis ∧
     (fetchData s (.error ()) recRes).state.situationData = s.situationData) ∧
    ((fetchData s (.ok ks) (.error ())).state.situationData = s.situationData ∧
     (fetchData s (.ok ks) (.error ())).state.kpis = ks.reverse) :=
  ⟨⟨rfl, rfl⟩, ⟨rfl, rfl⟩⟩

/-- C9: the chat sequence is append-only: every operation of the
program, on success or failure, either leaves `messages` unchanged or
extends it at the end, so the prior sequence is always a prefix of the
new one and no existing entry is modified or removed. -/
theorem messages_append_only (s : AppState) (op : Op) :
    ∃ tail, (step s op).state.messages = s.messages ++ tail := by
  cases op with
  | poll kpiRes recRes =>
      refine ⟨[], ?_⟩
      cases kpiRes with
      | error e => simp [step, fetchData]
      | ok ks => cases recRes <;> simp [step, fetchData]
  | send audioBlob voiceRes textRes =>
      by_cases hg : (isBlank s.input && audioBlob.isNone) = true
      · exact ⟨[], by simp [step, handleSendMessage, hg]⟩
      · cases audioBlob with
        | some blob =>
            cases voiceRes with
            | ok v =>
                exact ⟨[ChatMessage.mk .user v.transcription,
                        ChatMessage.mk .bot v.nlp_data.response_text],
                       by simp [step, handleSendMessage, hg]⟩
            | error e =>
                exact ⟨[ChatMessage.mk .bot apologyText],
                       by simp [step, handleSendMessage, hg]⟩
        | none =>
            simp only [Option.isNone_none, Bool.and_true] at hg
            cases textRes with
            | ok t =>
                exact ⟨[ChatMessage.mk .user
                          (if s.input == "" then "" else s.input),
                        ChatMessage.mk .bot t.response_text],
                       by simp [step, handleSendMessage, hg]⟩
            | error e =>
                exact ⟨[ChatMessage.mk .user
                          (if s.input == "" then "" else s.input),
                        ChatMessage.mk .bot apologyText],
                       by simp [step, handleSendMessage, hg]⟩
  | approve rec postRes =>
      refine ⟨[], ?_⟩
      cases postRes <;> simp [step, handleApproveTask]
  | startRec micAccess =>
      refine ⟨[], ?_⟩
      cases micAccess <;> simp [step, startRecording]
  | stopRec =>
      refine ⟨[], ?_⟩
      by_cases hr : (s.mediaRecorder.isSome && s.isRecording) = true <;>
        simp [step, stopRecording, hr]
